import Mathlib

/-!
Verification of the ECDSA response validator of `consumer.py`.

The validator `verify_ecdsa_signature(name, sig)` inspects the signature
metadata of a received Data packet, fetches the signer certificate named by
the key locator, extracts the public key from the certificate content and
checks the packet signature. We embed it as a pure function over an explicit
environment that supplies the external collaborators (the network fetch, the
certificate decoder and the cryptographic primitives from the libraries),
and we record the list of nested fetches the run performs. A Python
exception escaping the function is modelled as an `Except.error` result.
-/

/-- A byte string, as a list of byte values. -/
abbrev Bytes := List Nat

/-- An NDN name: an ordered list of opaque binary components. -/
abbrev NdnName := List Bytes

/-- The Python exceptions that can escape or be caught inside the
validator: the three failure outcomes of `app.express_interest`
(`InterestNack`, `InterestTimeout`, `InterestCanceled`), the
`AttributeError` from reading `.name` on a `None` key locator, the
`TypeError` from `bytes(None)`, the `ValueError` raised by
`ECC.import_key` and by `DSS` verification, and the decode error raised by
`parse_certificate` on a malformed packet. -/
inductive PyExc where
  | interestNack
  | interestTimeout
  | interestCanceled
  | attributeError
  | typeError
  | valueError
  | parseError
deriving DecidableEq, Repr

namespace SignatureType

/-- `SignatureType.SHA256_WITH_ECDSA` from `ndn.encoding`: the one
signature type the validator supports. -/
def SHA256_WITH_ECDSA : Nat := 3

end SignatureType

/-- Key locator of a signature: in `python-ndn` its `name` field is
optional. -/
structure KeyLocator where
  name : Option NdnName
deriving DecidableEq, Repr

/-- The signature info carried with a Data packet: the signature type code
and the optional key locator. Both fields are optional in `python-ndn`. -/
structure SignatureInfo where
  signature_type : Option Nat
  key_locator : Option KeyLocator
deriving DecidableEq, Repr

/-- `SignaturePtrs` from `ndn.encoding`: the signature info, the list of
covered byte ranges and the signature value buffer, each possibly absent. -/
structure SignaturePtrs where
  signature_info : Option SignatureInfo
  signature_covered_part : Option (List Bytes)
  signature_value_buf : Option Bytes
deriving DecidableEq, Repr

/-- Outcome of one `app.express_interest` call as the validator observes
it: a Data packet (certificate name, optional content, raw packet bytes),
or one of the three network failures, each of which is raised as an
exception by `express_interest`. The `meta_info` return value is only
printed by the source and is omitted. -/
inductive FetchResult where
  | success (certName : NdnName) (content : Option Bytes) (rawPacket : Bytes)
  | nack
  | timeout
  | canceled
deriving DecidableEq, Repr

/-- One nested `express_interest` invocation issued by the validator:
the requested name and the `must_be_fresh`, `can_be_prefix` and
`lifetime` parameters it was given. -/
structure FetchCall where
  name : NdnName
  mustBeFresh : Bool
  canBePfx : Bool
  lifetime : Nat
deriving DecidableEq, Repr

/-- The external collaborators of the validator, none of which is code of
this file's own repository: the network (`app.express_interest`),
`parse_certificate` from `ndn.app_support.security_v2` (its structured
result is unused by the source, which only relies on it raising on a
malformed packet, so we keep just the success/failure outcome),
`ECC.import_key` (failure is a `ValueError`), the streaming `SHA256`
digest of a byte string, and the `DSS` verifier, whose `verify` raises
`ValueError` exactly when the result here is `false`. The public key is an
opaque token. -/
structure Env where
  fetch : NdnName → Bool → Bool → Nat → FetchResult
  parse_certificate : Bytes → Except Unit Unit
  import_key : Bytes → Except Unit Nat
  sha256 : Bytes → Bytes
  dss_verify : Nat → Bytes → Bytes → Bool

/-- Python truthiness test used by `if not covered_part or not sig_value`:
an optional sequence is falsy when absent or empty. -/
def pyFalsy {α : Type} : Option (List α) → Bool
  | none => true
  | some l => l.isEmpty

/-- The bytes absorbed by the streaming hash in
`for blk in covered_part: sha256_hash.update(blk)`: the left fold that
appends each covered block in order. -/
def sha256Feed (blocks : List Bytes) : Bytes :=
  blocks.foldl (fun acc blk => acc ++ blk) []

/-- `key_name = sig_info.key_locator.name[0:]` (line 58 of the source).
Reading `.name` on an absent key locator raises `AttributeError`; slicing
an absent name raises `TypeError`; otherwise the slice copies the name. -/
def keyNameOf (sig_info : SignatureInfo) : Except PyExc NdnName :=
  match sig_info.key_locator with
  | none => Except.error PyExc.attributeError
  | some kl =>
    match kl.name with
    | none => Except.error PyExc.typeError
    | some n => Except.ok n

/-- Embedding of `verify_ecdsa_signature` from `consumer.py`. Returns the
function's outcome (`Except.ok` for a normal boolean return,
`Except.error` for an escaping exception) together with the list of nested
`express_interest` calls the run issued.

Line by line: the guard on `sig_info` and the signature type (lines
54-55), the guard on the covered part and the signature value (lines
56-57), the key-name extraction (line 58), the nested fetch with
`must_be_fresh=True, can_be_prefix=True, lifetime=6000` (lines 61-62,
not wrapped in any `try`), `parse_certificate(raw_packet)` (line 65, not
wrapped in any `try`), `key_bits = bytes(content)` inside a
`try ... except (KeyError, AttributeError)` (lines 68-72) — `content` is
either `None`, for which `bytes(None)` raises an uncaught `TypeError`, or
a binary string, for which `bytes(...)` succeeds, so the handler is dead —
`ECC.import_key` (line 73, not wrapped in any `try`), the streamed SHA-256
digest of the covered parts (lines 75-77), and the `DSS` verification
inside `try ... except ValueError: return False` (lines 78-81). -/
def verify_ecdsa_signature (env : Env) (_name : NdnName) (sig : SignaturePtrs) :
    Except PyExc Bool × List FetchCall :=
  let covered_part := sig.signature_covered_part
  let sig_value := sig.signature_value_buf
  match sig.signature_info with
  | none => (Except.ok false, [])
  | some sig_info =>
    if sig_info.signature_type ≠ some SignatureType.SHA256_WITH_ECDSA then
      (Except.ok false, [])
    else if pyFalsy covered_part || pyFalsy sig_value then
      (Except.ok false, [])
    else
      match keyNameOf sig_info with
      | Except.error e => (Except.error e, [])
      | Except.ok key_name =>
        let call : FetchCall := ⟨key_name, true, true, 6000⟩
        match env.fetch key_name true true 6000 with
        | FetchResult.nack => (Except.error PyExc.interestNack, [call])
        | FetchResult.timeout => (Except.error PyExc.interestTimeout, [call])
        | FetchResult.canceled => (Except.error PyExc.interestCanceled, [call])
        | FetchResult.success _certName content rawPacket =>
          match env.parse_certificate rawPacket with
          | Except.error _ => (Except.error PyExc.parseError, [call])
          | Except.ok _ =>
            match content with
            | none => (Except.error PyExc.typeError, [call])
            | some key_bits =>
              match env.import_key key_bits with
              | Except.error _ => (Except.error PyExc.valueError, [call])
              | Except.ok pk =>
                let digest := env.sha256 (sha256Feed (covered_part.getD []))
                if env.dss_verify pk digest (sig_value.getD []) then
                  (Except.ok true, [call])
                else
                  (Except.ok false, [call])

/-- The metadata checks of lines 54-57: the signature info is present with
the supported signature type, and the covered part and signature value are
both present and non-empty. -/
def metadataChecksPass (sig : SignaturePtrs) : Bool :=
  match sig.signature_info with
  | none => false
  | some sig_info =>
    (sig_info.signature_type == some SignatureType.SHA256_WITH_ECDSA)
      && !(pyFalsy sig.signature_covered_part || pyFalsy sig.signature_value_buf)

/-- The exception a failed `express_interest` raises, `none` on success. -/
def fetchFailExc : FetchResult → Option PyExc
  | FetchResult.nack => some PyExc.interestNack
  | FetchResult.timeout => some PyExc.interestTimeout
  | FetchResult.canceled => some PyExc.interestCanceled
  | FetchResult.success _ _ _ => none

/-! Concrete inputs used by counterexamples and witnesses. -/

/-- A concrete key-locator name. -/
def exKeyName : NdnName := [[107], [101], [121]]

/-- A concrete Data name. -/
def exName : NdnName := [[100], [97], [116], [97]]

/-- Signature metadata that passes every metadata check: supported
signature type, a key locator carrying a name, non-empty covered part and
signature value. -/
def exSig : SignaturePtrs :=
  ⟨some ⟨some SignatureType.SHA256_WITH_ECDSA, some ⟨some exKeyName⟩⟩,
   some [[1, 2], [3]], some [9, 9]⟩

/-- An environment whose nested fetch always times out. -/
def exEnvTimeout : Env :=
  ⟨fun _ _ _ _ => FetchResult.timeout,
   fun _ => Except.ok (), fun _ => Except.ok 0,
   fun b => b, fun _ _ _ => true⟩


/-- The precondition of claim C3: the signature info is absent, or its
signature type differs from the one supported type. -/
def unsupportedMetadata (sig : SignaturePtrs) : Bool :=
  match sig.signature_info with
  | none => true
  | some si => si.signature_type != some SignatureType.SHA256_WITH_ECDSA

/-- Signature metadata with an unsupported signature type code. -/
def exSigBadType : SignaturePtrs :=
  ⟨some ⟨some 2, some ⟨some exKeyName⟩⟩, some [[1]], some [2]⟩

/-- Signature metadata that passes the checks of lines 54-57 but carries
no key locator. -/
def exSigNoKeyLocator : SignaturePtrs :=
  ⟨some ⟨some SignatureType.SHA256_WITH_ECDSA, none⟩, some [[1]], some [2]⟩

/-- The single nested fetch the validator issues for `exKeyName`. -/
def exCall : FetchCall := ⟨exKeyName, true, true, 6000⟩

/-- An environment whose nested fetch succeeds but whose fetched packet
does not decode as a certificate. -/
def exEnvParseFail : Env :=
  ⟨fun n _ _ _ => FetchResult.success n (some [5]) [1],
   fun _ => Except.error (), fun _ => Except.ok 0,
   fun b => b, fun _ _ _ => true⟩

/-- An environment whose fetched certificate parses but whose content
bytes are not importable key material. -/
def exEnvImportFail : Env :=
  ⟨fun n _ _ _ => FetchResult.success n (some [5]) [1],
   fun _ => Except.ok (), fun _ => Except.error (),
   fun b => b, fun _ _ _ => true⟩

/-- An environment whose fetched certificate parses but carries no
content. -/
def exEnvNoContent : Env :=
  ⟨fun n _ _ _ => FetchResult.success n none [1],
   fun _ => Except.ok (), fun _ => Except.ok 0,
   fun b => b, fun _ _ _ => true⟩

/-- An environment where everything up to the final signature check
succeeds and the DSS verification rejects. -/
def exEnvVerifyFail : Env :=
  ⟨fun n _ _ _ => FetchResult.success n (some [5]) [1],
   fun _ => Except.ok (), fun _ => Except.ok 7,
   fun b => b, fun _ _ _ => false⟩

/-- An environment where everything succeeds and the DSS verification
accepts. -/
def exEnvVerifyOk : Env :=
  ⟨fun n _ _ _ => FetchResult.success n (some [5]) [1],
   fun _ => Except.ok (), fun _ => Except.ok 7,
   fun b => b, fun _ _ _ => true⟩

/-- An environment whose hash is the identity on byte strings and whose
DSS verifier accepts exactly the digest `[1, 2, 3]` of the originally
signed covered bytes. -/
def exEnvDigestCheck : Env :=
  ⟨fun n _ _ _ => FetchResult.success n (some [5]) [1],
   fun _ => Except.ok (), fun _ => Except.ok 7,
   fun b => b, fun _ d _ => d == [1, 2, 3]⟩

/-- `exSig` with one covered byte altered after signing: the covered
blocks `[[1, 2], [3]]` became `[[1, 2], [4]]`. -/
def exSigAltered : SignaturePtrs :=
  ⟨some ⟨some SignatureType.SHA256_WITH_ECDSA, some ⟨some exKeyName⟩⟩,
   some [[1, 2], [4]], some [9, 9]⟩

/-- C3: whenever the signature info is absent or its signature type is not
the supported SHA-256-with-ECDSA type, `verify_ecdsa_signature` returns
`false` normally and issues no nested fetch. -/
theorem c3_unsupported_type_returns_false_without_fetch
    (env : Env) (nm : NdnName) (sig : SignaturePtrs)
    (h : unsupportedMetadata sig = true) :
    verify_ecdsa_signature env nm sig = (Except.ok false, []) := by
  unfold verify_ecdsa_signature
  unfold unsupportedMetadata at h
  cases hsi : sig.signature_info with
  | none => simp
  | some si =>
    rw [hsi] at h
    have ht : si.signature_type ≠ some SignatureType.SHA256_WITH_ECDSA :=
      bne_iff_ne.mp h
    simp [ht]

/-- Witness for C3 at a concrete unsupported signature type. -/
theorem c3_witness :
    unsupportedMetadata exSigBadType = true ∧
      verify_ecdsa_signature exEnvTimeout exName exSigBadType = (Except.ok false, []) :=
  ⟨by decide,
   c3_unsupported_type_returns_false_without_fetch exEnvTimeout exName exSigBadType (by decide)⟩

/-- C4: whenever the covered-part sequence or the signature-value bytes is
absent or empty, `verify_ecdsa_signature` returns `false` normally and
issues no nested fetch. -/
theorem c4_falsy_covered_or_value_returns_false_without_fetch
    (env : Env) (nm : NdnName) (sig : SignaturePtrs)
    (h : pyFalsy sig.signature_covered_part = true ∨ pyFalsy sig.signature_value_buf = true) :
    verify_ecdsa_signature env nm sig = (Except.ok false, []) := by
  unfold verify_ecdsa_signature
  cases hsi : sig.signature_info with
  | none => simp
  | some si =>
    by_cases ht : si.signature_type = some SignatureType.SHA256_WITH_ECDSA
    · rcases h with h | h <;> simp [ht, h]
    · simp [ht]

/-- Witness for C4 at a concrete input with an empty covered part. -/
theorem c4_witness :
    pyFalsy (SignaturePtrs.signature_covered_part
        ⟨some ⟨some SignatureType.SHA256_WITH_ECDSA, some ⟨some exKeyName⟩⟩, some [], some [9]⟩) = true ∧
      verify_ecdsa_signature exEnvTimeout exName
        ⟨some ⟨some SignatureType.SHA256_WITH_ECDSA, some ⟨some exKeyName⟩⟩, some [], some [9]⟩ =
        (Except.ok false, []) :=
  ⟨by decide,
   c4_falsy_covered_or_value_returns_false_without_fetch exEnvTimeout exName
     ⟨some ⟨some SignatureType.SHA256_WITH_ECDSA, some ⟨some exKeyName⟩⟩, some [], some [9]⟩
     (Or.inl (by decide))⟩

/-- C10: on signature metadata with the supported type, non-empty covered
part and signature value, but no key locator, `verify_ecdsa_signature`
raises `AttributeError` (line 58 reads `.name` on `None`) instead of
returning `false`, whatever the environment. -/
theorem c10_missing_key_locator_raises (env : Env) (nm : NdnName) :
    verify_ecdsa_signature env nm exSigNoKeyLocator = (Except.error PyExc.attributeError, []) ∧
      (verify_ecdsa_signature env nm exSigNoKeyLocator).1 ≠ Except.ok false :=
  ⟨rfl, fun h => Except.noConfusion h⟩

/-- Counterexample to C1: with valid signature metadata and a nested fetch
that times out, `verify_ecdsa_signature` does not return `false` — the
`InterestTimeout` exception escapes (line 61 is not wrapped in a `try`). -/
theorem c1_counterexample :
    verify_ecdsa_signature exEnvTimeout exName exSig =
        (Except.error PyExc.interestTimeout, [exCall]) ∧
      (verify_ecdsa_signature exEnvTimeout exName exSig).1 ≠ Except.ok false :=
  ⟨rfl, fun h => Except.noConfusion h⟩

/-- C1 as amended: when the metadata checks pass and the key name is
extractable, a failing nested fetch (nack, timeout or cancel) makes
`verify_ecdsa_signature` propagate the corresponding exception, after
exactly the one fetch, instead of returning `false`. -/
theorem c1_amended_fetch_failure_propagates
    (env : Env) (nm : NdnName) (sig : SignaturePtrs) (si : SignatureInfo)
    (kn : NdnName) (e : PyExc)
    (hsi : sig.signature_info = some si)
    (hchecks : metadataChecksPass sig = true)
    (hkn : keyNameOf si = Except.ok kn)
    (hfail : fetchFailExc (env.fetch kn true true 6000) = some e) :
    verify_ecdsa_signature env nm sig = (Except.error e, [⟨kn, true, true, 6000⟩]) := by
  unfold metadataChecksPass at hchecks
  rw [hsi] at hchecks
  simp only [Bool.and_eq_true, beq_iff_eq, Bool.not_eq_true', Bool.or_eq_false_iff] at hchecks
  obtain ⟨hst, hcov, hsv⟩ := hchecks
  unfold verify_ecdsa_signature
  rw [hsi]
  cases hf : env.fetch kn true true 6000 with
  | success cn c raw => rw [hf] at hfail; simp [fetchFailExc] at hfail
  | nack =>
    rw [hf] at hfail
    simp only [fetchFailExc, Option.some.injEq] at hfail
    simp [hst, hcov, hsv, hkn, hf, ← hfail]
  | timeout =>
    rw [hf] at hfail
    simp only [fetchFailExc, Option.some.injEq] at hfail
    simp [hst, hcov, hsv, hkn, hf, ← hfail]
  | canceled =>
    rw [hf] at hfail
    simp only [fetchFailExc, Option.some.injEq] at hfail
    simp [hst, hcov, hsv, hkn, hf, ← hfail]

/-- Witness for the amended C1 at the concrete timing-out environment. -/
theorem c1_amended_witness :
    metadataChecksPass exSig = true ∧
      verify_ecdsa_signature exEnvTimeout exName exSig =
        (Except.error PyExc.interestTimeout, [⟨exKeyName, true, true, 6000⟩]) :=
  ⟨by decide,
   c1_amended_fetch_failure_propagates exEnvTimeout exName exSig
     ⟨some SignatureType.SHA256_WITH_ECDSA, some ⟨some exKeyName⟩⟩
     exKeyName PyExc.interestTimeout rfl (by decide) rfl rfl⟩

/-- Counterexample to C2: with valid signature metadata, a successful
fetch and a packet that fails certificate decoding, `verify` does not
return `false` — the decode exception escapes (line 65 is not wrapped in a
`try`). -/
theorem c2_counterexample :
    verify_ecdsa_signature exEnvParseFail exName exSig =
        (Except.error PyExc.parseError, [exCall]) ∧
      (verify_ecdsa_signature exEnvParseFail exName exSig).1 ≠ Except.ok false :=
  ⟨rfl, fun h => Except.noConfusion h⟩

/-- C2 as amended: when the fetched packet fails to decode as a
certificate, `verify_ecdsa_signature` propagates the decode exception
instead of returning `false`. -/
theorem c2_amended_parse_failure_propagates
    (env : Env) (nm : NdnName) (sig : SignaturePtrs) (si : SignatureInfo)
    (kn cn : NdnName) (content : Option Bytes) (raw : Bytes)
    (hsi : sig.signature_info = some si)
    (hchecks : metadataChecksPass sig = true)
    (hkn : keyNameOf si = Except.ok kn)
    (hfetch : env.fetch kn true true 6000 = FetchResult.success cn content raw)
    (hparse : env.parse_certificate raw = Except.error ()) :
    verify_ecdsa_signature env nm sig =
      (Except.error PyExc.parseError, [⟨kn, true, true, 6000⟩]) := by
  unfold metadataChecksPass at hchecks
  rw [hsi] at hchecks
  simp only [Bool.and_eq_true, beq_iff_eq, Bool.not_eq_true', Bool.or_eq_false_iff] at hchecks
  obtain ⟨hst, hcov, hsv⟩ := hchecks
  unfold verify_ecdsa_signature
  rw [hsi]
  simp [hst, hcov, hsv, hkn, hfetch, hparse]

/-- Witness for the amended C2 at the concrete malformed-certificate
environment. -/
theorem c2_amended_witness :
    metadataChecksPass exSig = true ∧
      verify_ecdsa_signature exEnvParseFail exName exSig =
        (Except.error PyExc.parseError, [⟨exKeyName, true, true, 6000⟩]) :=
  ⟨by decide,
   c2_amended_parse_failure_propagates exEnvParseFail exName exSig
     ⟨some SignatureType.SHA256_WITH_ECDSA, some ⟨some exKeyName⟩⟩
     exKeyName exKeyName (some [5]) [1] rfl (by decide) rfl rfl rfl⟩

/-- Counterexample to C5: with a fetched certificate whose content bytes
are not importable key material, `verify` does not return `false` — the
`ValueError` from `ECC.import_key` escapes (line 73 is not wrapped in a
`try`). -/
theorem c5_counterexample :
    verify_ecdsa_signature exEnvImportFail exName exSig =
        (Except.error PyExc.valueError, [exCall]) ∧
      (verify_ecdsa_signature exEnvImportFail exName exSig).1 ≠ Except.ok false :=
  ⟨rfl, fun h => Except.noConfusion h⟩

/-- C5 as amended: when the public key payload cannot be extracted,
`verify_ecdsa_signature` raises instead of returning `false`: an absent
content raises `TypeError` from `bytes(None)` (the handler at lines 70-72
catches only `KeyError` and `AttributeError`, which the conversion of a
binary-string content cannot raise), and malformed key material raises
`ValueError` from `ECC.import_key`. -/
theorem c5_amended_key_extraction_failure_raises
    (env : Env) (nm : NdnName) (sig : SignaturePtrs) (si : SignatureInfo)
    (kn cn : NdnName) (content : Option Bytes) (raw : Bytes)
    (hsi : sig.signature_info = some si)
    (hchecks : metadataChecksPass sig = true)
    (hkn : keyNameOf si = Except.ok kn)
    (hfetch : env.fetch kn true true 6000 = FetchResult.success cn content raw)
    (hparse : env.parse_certificate raw = Except.ok ()) :
    (content = none →
        verify_ecdsa_signature env nm sig =
          (Except.error PyExc.typeError, [⟨kn, true, true, 6000⟩])) ∧
      (∀ kb, content = some kb → env.import_key kb = Except.error () →
        verify_ecdsa_signature env nm sig =
          (Except.error PyExc.valueError, [⟨kn, true, true, 6000⟩])) := by
  unfold metadataChecksPass at hchecks
  rw [hsi] at hchecks
  simp only [Bool.and_eq_true, beq_iff_eq, Bool.not_eq_true', Bool.or_eq_false_iff] at hchecks
  obtain ⟨hst, hcov, hsv⟩ := hchecks
  constructor
  · intro hc
    unfold verify_ecdsa_signature
    rw [hsi]
    simp [hst, hcov, hsv, hkn, hfetch, hparse, hc]
  · intro kb hc himp
    unfold verify_ecdsa_signature
    rw [hsi]
    simp [hst, hcov, hsv, hkn, hfetch, hparse, hc, himp]

/-- Witness for the amended C5 at the concrete content-less environment. -/
theorem c5_amended_witness :
    metadataChecksPass exSig = true ∧
      verify_ecdsa_signature exEnvNoContent exName exSig =
        (Except.error PyExc.typeError, [⟨exKeyName, true, true, 6000⟩]) :=
  ⟨by decide,
   (c5_amended_key_extraction_failure_raises exEnvNoContent exName exSig
     ⟨some SignatureType.SHA256_WITH_ECDSA, some ⟨some exKeyName⟩⟩
     exKeyName exKeyName none [1] rfl (by decide) rfl rfl rfl).1 rfl⟩

/-- Folding append over the covered blocks from any accumulator appends
their in-order concatenation. -/
theorem foldl_append_eq_append_flatten (blocks : List Bytes) (acc : Bytes) :
    blocks.foldl (fun a b => a ++ b) acc = acc ++ blocks.flatten := by
  induction blocks generalizing acc with
  | nil => simp
  | cons b bs ih => simp [ih, List.append_assoc]

/-- The streamed hash input is exactly the in-order concatenation of the
covered blocks. -/
theorem sha256Feed_eq_flatten (blocks : List Bytes) : sha256Feed blocks = blocks.flatten := by
  unfold sha256Feed
  rw [foldl_append_eq_append_flatten]
  simp

/-- When every stage up to the final DSS check succeeds, the validator
returns exactly the DSS outcome, after the single nested fetch. -/
theorem verify_returns_dss_outcome
    (env : Env) (nm : NdnName) (sig : SignaturePtrs) (si : SignatureInfo)
    (kn cn : NdnName) (kb raw : Bytes) (pk : Nat) (b : Bool)
    (hsi : sig.signature_info = some si)
    (hchecks : metadataChecksPass sig = true)
    (hkn : keyNameOf si = Except.ok kn)
    (hfetch : env.fetch kn true true 6000 = FetchResult.success cn (some kb) raw)
    (hparse : env.parse_certificate raw = Except.ok ())
    (himp : env.import_key kb = Except.ok pk)
    (hdss : env.dss_verify pk
        (env.sha256 (sha256Feed (sig.signature_covered_part.getD [])))
        (sig.signature_value_buf.getD []) = b) :
    verify_ecdsa_signature env nm sig = (Except.ok b, [⟨kn, true, true, 6000⟩]) := by
  unfold metadataChecksPass at hchecks
  rw [hsi] at hchecks
  simp only [Bool.and_eq_true, beq_iff_eq, Bool.not_eq_true', Bool.or_eq_false_iff] at hchecks
  obtain ⟨hst, hcov, hsv⟩ := hchecks
  unfold verify_ecdsa_signature
  rw [hsi]
  cases b with
  | true => simp [hst, hcov, hsv, hkn, hfetch, hparse, himp, hdss]
  | false => simp [hst, hcov, hsv, hkn, hfetch, hparse, himp, hdss]

/-- C6: when the run reaches the final signature check and the DSS
verification rejects (malformed DER signature or digest mismatch), the
`ValueError` is caught and `verify_ecdsa_signature` returns the normal
result `false`. -/
theorem c6_verification_error_returns_false
    (env : Env) (nm : NdnName) (sig : SignaturePtrs) (si : SignatureInfo)
    (kn cn : NdnName) (kb raw : Bytes) (pk : Nat)
    (hsi : sig.signature_info = some si)
    (hchecks : metadataChecksPass sig = true)
    (hkn : keyNameOf si = Except.ok kn)
    (hfetch : env.fetch kn true true 6000 = FetchResult.success cn (some kb) raw)
    (hparse : env.parse_certificate raw = Except.ok ())
    (himp : env.import_key kb = Except.ok pk)
    (hdss : env.dss_verify pk
        (env.sha256 (sha256Feed (sig.signature_covered_part.getD [])))
        (sig.signature_value_buf.getD []) = false) :
    verify_ecdsa_signature env nm sig = (Except.ok false, [⟨kn, true, true, 6000⟩]) :=
  verify_returns_dss_outcome env nm sig si kn cn kb raw pk false
    hsi hchecks hkn hfetch hparse himp hdss

/-- Witness for C6 at the concrete rejecting environment. -/
theorem c6_witness :
    metadataChecksPass exSig = true ∧
      verify_ecdsa_signature exEnvVerifyFail exName exSig =
        (Except.ok false, [⟨exKeyName, true, true, 6000⟩]) :=
  ⟨by decide,
   c6_verification_error_returns_false exEnvVerifyFail exName exSig
     ⟨some SignatureType.SHA256_WITH_ECDSA, some ⟨some exKeyName⟩⟩
     exKeyName exKeyName [5] [1] 7 rfl (by decide) rfl rfl rfl rfl rfl⟩

/-- C7: on a well-formed triple — metadata checks pass, the certificate
named by the key locator is fetchable and decodes, its content imports as
the public key, and the DSS verification of the streamed digest accepts —
`verify_ecdsa_signature` returns `true`. -/
theorem c7_well_formed_triple_verifies
    (env : Env) (nm : NdnName) (sig : SignaturePtrs) (si : SignatureInfo)
    (kn cn : NdnName) (kb raw : Bytes) (pk : Nat)
    (hsi : sig.signature_info = some si)
    (hchecks : metadataChecksPass sig = true)
    (hkn : keyNameOf si = Except.ok kn)
    (hfetch : env.fetch kn true true 6000 = FetchResult.success cn (some kb) raw)
    (hparse : env.parse_certificate raw = Except.ok ())
    (himp : env.import_key kb = Except.ok pk)
    (hdss : env.dss_verify pk
        (env.sha256 (sha256Feed (sig.signature_covered_part.getD [])))
        (sig.signature_value_buf.getD []) = true) :
    verify_ecdsa_signature env nm sig = (Except.ok true, [⟨kn, true, true, 6000⟩]) :=
  verify_returns_dss_outcome env nm sig si kn cn kb raw pk true
    hsi hchecks hkn hfetch hparse himp hdss

/-- Witness for C7 at the concrete accepting environment. -/
theorem c7_witness :
    metadataChecksPass exSig = true ∧
      verify_ecdsa_signature exEnvVerifyOk exName exSig =
        (Except.ok true, [⟨exKeyName, true, true, 6000⟩]) :=
  ⟨by decide,
   c7_well_formed_triple_verifies exEnvVerifyOk exName exSig
     ⟨some SignatureType.SHA256_WITH_ECDSA, some ⟨some exKeyName⟩⟩
     exKeyName exKeyName [5] [1] 7 rfl (by decide) rfl rfl rfl rfl rfl⟩

/-- C8: the digest the validator checks is the hash of the in-order
concatenation of the covered blocks (the streamed feed equals the
concatenation), so altering any covered byte after signing — under the
cryptographic assumptions that the DSS verifier only accepts the digest of
the originally signed bytes and that the hash of the altered concatenation
differs — makes `verify_ecdsa_signature` return `false`. Here `cp0` is the
covered-block list the producer signed and `sig` is the altered packet. -/
theorem c8_digest_ordered_and_alteration_fails
    (env : Env) (nm : NdnName) (sig : SignaturePtrs) (si : SignatureInfo)
    (kn cn : NdnName) (kb raw : Bytes) (pk : Nat) (cp0 : List Bytes)
    (hsi : sig.signature_info = some si)
    (hchecks : metadataChecksPass sig = true)
    (hkn : keyNameOf si = Except.ok kn)
    (hfetch : env.fetch kn true true 6000 = FetchResult.success cn (some kb) raw)
    (hparse : env.parse_certificate raw = Except.ok ())
    (himp : env.import_key kb = Except.ok pk)
    (hsound : ∀ d, env.dss_verify pk d (sig.signature_value_buf.getD []) = true →
        d = env.sha256 cp0.flatten)
    (hne : env.sha256 (sig.signature_covered_part.getD []).flatten ≠ env.sha256 cp0.flatten) :
    sha256Feed (sig.signature_covered_part.getD []) =
        (sig.signature_covered_part.getD []).flatten ∧
      verify_ecdsa_signature env nm sig = (Except.ok false, [⟨kn, true, true, 6000⟩]) := by
  refine ⟨sha256Feed_eq_flatten _, ?_⟩
  have hdss : env.dss_verify pk
      (env.sha256 (sha256Feed (sig.signature_covered_part.getD [])))
      (sig.signature_value_buf.getD []) = false := by
    by_contra hb
    rw [Bool.not_eq_false] at hb
    have hacc := hsound _ hb
    rw [sha256Feed_eq_flatten] at hacc
    exact hne hacc
  exact verify_returns_dss_outcome env nm sig si kn cn kb raw pk false
    hsi hchecks hkn hfetch hparse himp hdss

/-- Witness for C8: concrete altered packet against the concrete
digest-checking environment. -/
theorem c8_witness :
    sha256Feed [[1, 2], [4]] = [[1, 2], [4]].flatten ∧
      verify_ecdsa_signature exEnvDigestCheck exName exSigAltered =
        (Except.ok false, [⟨exKeyName, true, true, 6000⟩]) :=
  c8_digest_ordered_and_alteration_fails exEnvDigestCheck exName exSigAltered
    ⟨some SignatureType.SHA256_WITH_ECDSA, some ⟨some exKeyName⟩⟩
    exKeyName exKeyName [5] [1] 7 [[1, 2], [3]]
    rfl (by decide) rfl rfl rfl rfl
    (fun d h => by simpa [exEnvDigestCheck] using h) (by decide)

/-- Every run of the validator issues at most one nested fetch: its fetch
trace is empty, or one call with `must_be_fresh`, `can_be_prefix` and the
6000 ms lifetime. -/
theorem verify_fetches_nil_or_single (env : Env) (nm : NdnName) (sig : SignaturePtrs) :
    (verify_ecdsa_signature env nm sig).2 = [] ∨
      ∃ kn, (verify_ecdsa_signature env nm sig).2 = [⟨kn, true, true, 6000⟩] := by
  cases hsi : sig.signature_info with
  | none =>
    left
    unfold verify_ecdsa_signature
    rw [hsi]
  | some si =>
    by_cases ht : si.signature_type = some SignatureType.SHA256_WITH_ECDSA
    · cases hb : (pyFalsy sig.signature_covered_part || pyFalsy sig.signature_value_buf) with
      | true =>
        left
        unfold verify_ecdsa_signature
        rw [hsi]
        simp [ht, hb]
      | false =>
        cases hkn : keyNameOf si with
        | error e =>
          left
          unfold verify_ecdsa_signature
          rw [hsi]
          simp [ht, hb, hkn]
        | ok kn =>
          right
          refine ⟨kn, ?_⟩
          unfold verify_ecdsa_signature
          rw [hsi]
          cases hf : env.fetch kn true true 6000 with
          | nack => simp [ht, hb, hkn, hf]
          | timeout => simp [ht, hb, hkn, hf]
          | canceled => simp [ht, hb, hkn, hf]
          | success cn c raw =>
            cases hp : env.parse_certificate raw with
            | error u => simp [ht, hb, hkn, hf, hp]
            | ok u =>
              cases c with
              | none => simp [ht, hb, hkn, hf, hp]
              | some kb =>
                cases hi : env.import_key kb with
                | error u => simp [ht, hb, hkn, hf, hp, hi]
                | ok pk => simp [ht, hb, hkn, hf, hp, hi, apply_ite]
    · left
      unfold verify_ecdsa_signature
      rw [hsi]
      simp [ht]

/-- C9: every invocation performs at most one nested fetch, and exactly
one — for the key-locator name, with `must_be_fresh = true`,
`can_be_prefix = true` and the 6000 ms lifetime — when the metadata
checks pass and the key-locator name is extractable. There is no further
fetch, hence no certificate-chain walking. -/
theorem c9_at_most_one_fetch (env : Env) (nm : NdnName) (sig : SignaturePtrs) :
    (verify_ecdsa_signature env nm sig).2.length ≤ 1 ∧
      (∀ si kn, sig.signature_info = some si → metadataChecksPass sig = true →
        keyNameOf si = Except.ok kn →
        (verify_ecdsa_signature env nm sig).2 = [⟨kn, true, true, 6000⟩]) := by
  constructor
  · rcases verify_fetches_nil_or_single env nm sig with h | ⟨kn, h⟩ <;> simp [h]
  · intro si kn hsi hchecks hkn
    unfold metadataChecksPass at hchecks
    rw [hsi] at hchecks
    simp only [Bool.and_eq_true, beq_iff_eq, Bool.not_eq_true', Bool.or_eq_false_iff] at hchecks
    obtain ⟨hst, hcov, hsv⟩ := hchecks
    unfold verify_ecdsa_signature
    rw [hsi]
    cases hf : env.fetch kn true true 6000 with
    | nack => simp [hst, hcov, hsv, hkn, hf]
    | timeout => simp [hst, hcov, hsv, hkn, hf]
    | canceled => simp [hst, hcov, hsv, hkn, hf]
    | success cn c raw =>
      cases hp : env.parse_certificate raw with
      | error u => simp [hst, hcov, hsv, hkn, hf, hp]
      | ok u =>
        cases c with
        | none => simp [hst, hcov, hsv, hkn, hf, hp]
        | some kb =>
          cases hi : env.import_key kb with
          | error u => simp [hst, hcov, hsv, hkn, hf, hp, hi]
          | ok pk => simp [hst, hcov, hsv, hkn, hf, hp, hi, apply_ite]

/-- Witness for C9 at a concrete run that passes the checks. -/
theorem c9_witness :
    (verify_ecdsa_signature exEnvTimeout exName exSig).2.length ≤ 1 ∧
      (verify_ecdsa_signature exEnvTimeout exName exSig).2 =
        [⟨exKeyName, true, true, 6000⟩] :=
  ⟨(c9_at_most_one_fetch exEnvTimeout exName exSig).1,
   (c9_at_most_one_fetch exEnvTimeout exName exSig).2
     ⟨some SignatureType.SHA256_WITH_ECDSA, some ⟨some exKeyName⟩⟩
     exKeyName rfl (by decide) rfl⟩
